import Mathlib

/-!
Shallow embedding of `pysmt/optimization/optimsat.py` (`OptiMSATSolver`):
the optimization orchestration layer over the OptiMathSAT backend.

The backend library (`self._msat_lib`), the converter and the model objects
are external collaborators; they are modelled as oracles (`MSatLib`).  The
control flow of `_le`, `optimize`, `lexicographic_optimize`,
`pareto_optimize` and `boxed_optimization` is translated statement by
statement from the source.  Side effects (which objectives are asserted, how
many times `self.solve()` is called, the `models` dictionary built by the
Pareto loop) are made part of the functions' results so that theorems can
speak about them.
-/

set_option maxHeartbeats 1000000

namespace OptiMSAT

/-- SMT sorts as computed by `self.environment.stc.get_type`. -/
inductive PType
  | intT
  | realT
  | bvT (width : Nat)
  | boolT
  | otherT (name : String)
deriving DecidableEq

/-- Mirror of `otype.is_int_type()`. -/
def PType.is_int_type : PType → Bool
  | .intT => true
  | _ => false

/-- Mirror of `otype.is_real_type()`. -/
def PType.is_real_type : PType → Bool
  | .realT => true
  | _ => false

/-- Mirror of `otype.is_bv_type()`. -/
def PType.is_bv_type : PType → Bool
  | .bvT _ => true
  | _ => false

/-- A pysmt formula node (`FNode`), carrying its sort. -/
structure Term where
  id : Nat
  ty : PType
deriving DecidableEq

/-- A native MathSAT term, produced by `self.converter.convert`. -/
structure NTerm where
  id : Nat
deriving DecidableEq

/-- A value read out of a model by `model.get_value(...)`. -/
structure Value where
  id : Nat
deriving DecidableEq

/-- A model snapshot.  `get_model()` wraps the solver environment right after
a `solve()` call; snapshots are identified by the 0-based index of the solve
call they follow. -/
abbrev Model := Nat

/-- The goal variants distinguished by the dispatch in the source
(`is_minmax_goal`, `is_maxmin_goal`, `is_minimization_goal`,
`is_maximization_goal`); `other` stands for any further goal class. -/
inductive GoalTag
  | minimize
  | maximize
  | minmax
  | maxmin
  | other (name : String)
deriving DecidableEq

/-- Modelled from the spec: the `Goal` class itself lives outside this
module.  Per the spec's data model, a Minimize/Maximize goal carries one
cost expression (`term`, the value of `goal.term()`), and a MinMax/MaxMin
goal carries an ordered sequence of cost expressions (`terms`, the value of
`goal.terms`); every goal exposes a cost term for model readouts. -/
structure Goal where
  tag : GoalTag
  term : Term
  terms : List Term
deriving DecidableEq

/-- Mirror of `goal.is_minmax_goal()`. -/
def Goal.is_minmax_goal (g : Goal) : Bool :=
  match g.tag with
  | .minmax => true
  | _ => false

/-- Mirror of `goal.is_maxmin_goal()`. -/
def Goal.is_maxmin_goal (g : Goal) : Bool :=
  match g.tag with
  | .maxmin => true
  | _ => false

/-- Mirror of `goal.is_minimization_goal()`. -/
def Goal.is_minimization_goal (g : Goal) : Bool :=
  match g.tag with
  | .minimize => true
  | _ => false

/-- Mirror of `goal.is_maximization_goal()`. -/
def Goal.is_maximization_goal (g : Goal) : Bool :=
  match g.tag with
  | .maximize => true
  | _ => false

/-- A goal accepted by the dispatch (any of the four recognized tags). -/
def Goal.isSupported (g : Goal) : Bool :=
  g.is_minmax_goal || g.is_maxmin_goal ||
    g.is_minimization_goal || g.is_maximization_goal

/-- A Minimize or Maximize goal (the scalar-objective branch). -/
def Goal.isScalarSupported (g : Goal) : Bool :=
  g.is_minimization_goal || g.is_maximization_goal

/-- The Python exceptions this module can raise.  `typeError` models the
Python runtime error raised when a non-callable object is called. -/
inductive PyErr
  | goalNotSupported (backend : String) (g : Goal)
  | solverReturnedUnknown
  | unboundedOpt (msg : String)
  | valueError
  | typeError
deriving DecidableEq

/-- The backend's objective result code: `MSAT_OPT_UNKNOWN`,
`MSAT_OPT_UNSAT`, or anything else (the source's final `else` branch, the
sat/optimal case). -/
inductive OptRes
  | unknown
  | unsat
  | optimal
deriving DecidableEq

/-- The four objective constructors of the backend library. -/
inductive ObjCtor
  | make_minmax
  | make_maxmin
  | make_minimize
  | make_maximize
deriving DecidableEq

/-- The cost argument an objective constructor was applied to: a single
native term (`msat_make_minimize`/`msat_make_maximize`) or a list
(`msat_make_minmax`/`msat_make_maxmin`). -/
inductive ObjArg
  | single (t : NTerm)
  | vec (ts : List NTerm)
deriving DecidableEq

/-- A constructed native objective handle, recording which constructor was
invoked, on which converted cost, and the extra positional argument when one
was passed (`False` in `optimize`; absent in the multi-goal variants). -/
structure MSatObjective where
  ctor : ObjCtor
  arg : ObjArg
  extra : Option Bool
deriving DecidableEq

/-- The possible run-time values of the local variable `f` in the
multi-goal variants: either still the backend constructor it was assigned,
or — after the loop `for f in cost_function:` has run — the last pysmt term
of the goal's sequence, which rebinds the same name. -/
inductive PyCallable
  | func (c : ObjCtor)
  | pyTerm (t : Term)
deriving DecidableEq

/-- Calling the object held by `f`.  A backend constructor yields an
objective handle; a pysmt term is not callable, so Python raises TypeError. -/
def PyCallable.call (f : PyCallable) (arg : ObjArg) (extra : Option Bool) :
    Except PyErr MSatObjective :=
  match f with
  | .func c => Except.ok ⟨c, arg, extra⟩
  | .pyTerm _ => Except.error PyErr.typeError

/-- The dynamic type of the second component of `optimize`'s returned pair:
the source returns the raw status code `optres`; the spec speaks of a scalar
value or a sequence of values. -/
inductive OptValue
  | status (r : OptRes)
  | scalar (v : Value)
  | seq (vs : List Value)
deriving DecidableEq

/-- Whether an `OptValue` is a sequence of values. -/
def OptValue.isSeq : OptValue → Bool
  | .seq _ => true
  | _ => false

/-- Oracle bundle for the external collaborators: the backend's answers
(`msat_objective_result`, `msat_objective_value_is_unbounded`,
`msat_objective_value_is_strict`, `msat_load_objective_model`), the result
of the k-th `self.solve()` call, and model readouts
(`model.get_value(t)` against the snapshot taken after the k-th solve). -/
structure MSatLib where
  objectiveResult : OptRes
  unbounded : Int
  isStrict : Bool
  loadResult : Int
  solve : Nat → Bool
  getValue : Nat → Term → Value

/-- The goal-to-objective compilation inside `optimize` (lines 91-112).
Here the constructor is kept in the separate variable `make_fun`, so the
conversion loop over `cost_function` does not disturb it, and the
constructor is invoked with the extra argument `False`. -/
def compileGoalSingle (conv : Term → NTerm) (g : Goal) :
    Except PyErr MSatObjective :=
  if g.is_minmax_goal || g.is_maxmin_goal then
    let make_fun := if g.is_minmax_goal then ObjCtor.make_minmax
      else ObjCtor.make_maxmin
    Except.ok ⟨make_fun, ObjArg.vec (g.terms.map conv), some false⟩
  else if g.is_minimization_goal || g.is_maximization_goal then
    let make_fun := if g.is_minimization_goal then ObjCtor.make_minimize
      else ObjCtor.make_maximize
    Except.ok ⟨make_fun, ObjArg.single (conv g.term), some false⟩
  else
    Except.error (PyErr.goalNotSupported "optimathsat" g)

/-- The per-goal compilation inside `lexicographic_optimize`,
`pareto_optimize` and `boxed_optimization`.  In the MinMax/MaxMin branch the
constructor is stored in `f`, but the conversion loop `for f in
cost_function:` rebinds `f`; after a non-empty loop, `f` holds the goal's
last pysmt term, and `f(self.msat_env(), obj_fun)` calls a term (TypeError).
The constructor call here passes no third argument. -/
def compileGoalMulti (conv : Term → NTerm) (g : Goal) :
    Except PyErr MSatObjective :=
  if g.is_minmax_goal || g.is_maxmin_goal then
    let f0 := if g.is_minmax_goal then PyCallable.func ObjCtor.make_minmax
      else PyCallable.func ObjCtor.make_maxmin
    let obj_fun := g.terms.map conv
    let f := g.terms.foldl (fun _ t => PyCallable.pyTerm t) f0
    f.call (ObjArg.vec obj_fun) none
  else if g.is_minimization_goal || g.is_maximization_goal then
    let f := if g.is_minimization_goal then ObjCtor.make_minimize
      else ObjCtor.make_maximize
    PyCallable.call (PyCallable.func f) (ObjArg.single (conv g.term)) none
  else
    Except.error (PyErr.goalNotSupported "optimathsat" g)

/-- `OptiMSATSolver.optimize`.  Compile the goal, assert the objective, run
one `solve()`, then interpret `msat_objective_result`: Unknown raises,
Unsat returns None, otherwise check unboundedness, then strictness, then
load the objective model (nonzero return raises ValueError) and return the
pair `(model, optres)` — the second component is the raw status code held in
`optres`. -/
def optimize (lib : MSatLib) (conv : Term → NTerm) (g : Goal) :
    Except PyErr (Option (Model × OptValue)) :=
  match compileGoalSingle conv g with
  | .error e => Except.error e
  | .ok _msat_obj =>
    match lib.objectiveResult with
    | .unknown => Except.error PyErr.solverReturnedUnknown
    | .unsat => Except.ok none
    | .optimal =>
      if lib.unbounded > 0 then
        Except.error (PyErr.unboundedOpt "The optimal value is unbounded")
      else if lib.isStrict then
        Except.error (PyErr.unboundedOpt "The optimal value is infinitesimal")
      else if lib.loadResult ≠ 0 then
        Except.error PyErr.valueError
      else
        Except.ok (some (0, OptValue.status OptRes.optimal))

/-- The shared assert-all loop of the three multi-goal variants: compile
each goal in order with `compileGoalMulti` and assert it; on the first
raising goal, stop with that exception.  Returns the objectives asserted so
far together with the exception, if any. -/
def assertAll (conv : Term → NTerm) :
    List Goal → List MSatObjective → List MSatObjective × Option PyErr
  | [], acc => (acc, none)
  | g :: gs, acc =>
    match compileGoalMulti conv g with
    | .error e => (acc, some e)
    | .ok obj => assertAll conv gs (acc ++ [obj])

instance {ε α : Type} [DecidableEq ε] [DecidableEq α] :
    DecidableEq (Except ε α) := fun a b =>
  match a, b with
  | .error e1, .error e2 =>
    if h : e1 = e2 then isTrue (by rw [h]) else
      isFalse (by intro hc; cases hc; exact h rfl)
  | .error _, .ok _ => isFalse (by intro hc; cases hc)
  | .ok _, .error _ => isFalse (by intro hc; cases hc)
  | .ok v1, .ok v2 =>
    if h : v1 = v2 then isTrue (by rw [h]) else
      isFalse (by intro hc; cases hc; exact h rfl)

/-- Run log of one `lexicographic_optimize` call: the objectives asserted,
the number of `solve()` calls made, and the returned value (or the
exception raised). -/
structure LexRun where
  asserted : List MSatObjective
  solveCalls : Nat
  result : Except PyErr (Option Model × Option (List Value))
deriving DecidableEq

/-- `OptiMSATSolver.lexicographic_optimize`: assert all goals' objectives,
run one `solve()`; on success return the model together with
`[model.get_value(x.term()) for x in goals]`, on failure `(None, None)`. -/
def lexicographic_optimize (lib : MSatLib) (conv : Term → NTerm)
    (goals : List Goal) : LexRun :=
  match assertAll conv goals [] with
  | (objs, some e) => ⟨objs, 0, Except.error e⟩
  | (objs, none) =>
    if lib.solve 0 then
      ⟨objs, 1, Except.ok
        (some 0, some (goals.map fun x => lib.getValue 0 x.term))⟩
    else
      ⟨objs, 1, Except.ok (none, none)⟩

/-- The solve loop of `pareto_optimize`: one `solve()` per goal; on success
record `models[goal] = (model, model.get_value(goal.term()))`, on failure
`return None`.  When the loop finishes, the function body ends without a
return statement, so Python returns `None`: the built dictionary is
discarded.  Returns (number of solve calls, the dictionary as built, the
value returned to the caller). -/
def paretoLoop (lib : MSatLib) :
    List Goal → Nat → List (Goal × Model × Value) →
    Nat × List (Goal × Model × Value) × Option (List (Goal × Model × Value))
  | [], k, ms => (k, ms, none)
  | g :: gs, k, ms =>
    if lib.solve k then
      paretoLoop lib gs (k + 1) (ms ++ [(g, k, lib.getValue k g.term)])
    else
      (k + 1, ms, none)

/-- Run log of one `pareto_optimize` call. -/
structure ParetoRun where
  asserted : List MSatObjective
  solveCalls : Nat
  models : List (Goal × Model × Value)
  result : Except PyErr (Option (List (Goal × Model × Value)))
deriving DecidableEq

/-- `OptiMSATSolver.pareto_optimize`: assert all goals' objectives, then run
the per-goal solve loop. -/
def pareto_optimize (lib : MSatLib) (conv : Term → NTerm)
    (goals : List Goal) : ParetoRun :=
  match assertAll conv goals [] with
  | (objs, some e) => ⟨objs, 0, [], Except.error e⟩
  | (objs, none) =>
    let r := paretoLoop lib goals 0 []
    ⟨objs, r.1, r.2.1, Except.ok r.2.2⟩

/-- The state of the generator returned by `boxed_optimization`: the index
of the next `solve()` call, and whether the generator has finished (a
finished Python generator raises StopIteration on every further `next`). -/
structure BoxedGen where
  idx : Nat
  done : Bool
deriving DecidableEq

/-- One `next()` on the boxed generator: if not finished, run `solve()`;
while it succeeds, yield the model snapshot taken right after it; at the
first failure the generator body falls through its `while` loop and ends. -/
def BoxedGen.next (lib : MSatLib) : BoxedGen → Option Model × BoxedGen
  | ⟨k, true⟩ => (none, ⟨k, true⟩)
  | ⟨k, false⟩ =>
    if lib.solve k then (some k, ⟨k + 1, false⟩)
    else (none, ⟨k, true⟩)

/-- Run log of one `boxed_optimization` call: the objectives asserted and
the generator handed to the caller (or the exception raised by the assert
loop; in Python that exception is deferred to the first `next`, with the
same observable sequence of backend effects). -/
structure BoxedRun where
  asserted : List MSatObjective
  result : Except PyErr BoxedGen
deriving DecidableEq

/-- `OptiMSATSolver.boxed_optimization`: assert all goals' objectives, then
hand out the lazy solve/yield generator. -/
def boxed_optimization (conv : Term → NTerm) (goals : List Goal) : BoxedRun :=
  match assertAll conv goals [] with
  | (objs, some e) => ⟨objs, Except.error e⟩
  | (objs, none) => ⟨objs, Except.ok ⟨0, false⟩⟩

/-- Iterate the boxed generator at most `n` times, collecting the yielded
models in order and stopping early when the generator is exhausted (as a
Python `for` loop does on StopIteration).  Returns the collected models and
the generator's final state. -/
def drain (lib : MSatLib) : Nat → BoxedGen → List Model × BoxedGen
  | 0, g => ([], g)
  | n + 1, g =>
    match BoxedGen.next lib g with
    | (none, g2) => ([], g2)
    | (some m, g2) => (m :: (drain lib n g2).1, (drain lib n g2).2)

/-- A formula built by the formula manager in `_le`. -/
inductive Formula
  | LE (x y : Term)
  | BVULE (x y : Term)
deriving DecidableEq

/-- `OptiMSATSolver._le`: on integer or real terms build `LE`, on
bit-vector terms build `BVULE`; any other sort falls through both branches
and the Python function returns `None` without raising. -/
def _le (x y : Term) : Option Formula :=
  let otype := x.ty
  if otype.is_int_type || otype.is_real_type then
    some (Formula.LE x y)
  else if otype.is_bv_type then
    some (Formula.BVULE x y)
  else
    none

/-! Concrete fixtures used to evaluate the embedding on closed inputs. -/

/-- A sample converter for concrete runs. -/
def convId : Term → NTerm := fun t => ⟨t.id⟩

/-- A Minimize goal over an integer cost term. -/
def gMin : Goal := ⟨GoalTag.minimize, ⟨0, PType.intT⟩, []⟩

/-- A Maximize goal over an integer cost term. -/
def gMax : Goal := ⟨GoalTag.maximize, ⟨1, PType.intT⟩, []⟩

/-- A MinMax goal whose ordered term sequence has two entries. -/
def gMM : Goal :=
  ⟨GoalTag.minmax, ⟨2, PType.intT⟩, [⟨2, PType.intT⟩, ⟨3, PType.intT⟩]⟩

/-- A goal of an unrecognized kind. -/
def gBad : Goal := ⟨GoalTag.other "maxsmt", ⟨9, PType.intT⟩, []⟩

/-- Backend where every check succeeds and the objective is optimal,
bounded, attained, and loads fine. -/
def libAllSat : MSatLib :=
  ⟨OptRes.optimal, 0, false, 0, fun _ => true, fun k t => ⟨k * 100 + t.id⟩⟩

/-- Backend whose objective result is Unknown. -/
def libUnknown : MSatLib :=
  ⟨OptRes.unknown, 0, false, 0, fun _ => true, fun k t => ⟨k * 100 + t.id⟩⟩

/-- Backend reporting the optimum both unbounded and strict. -/
def libUB : MSatLib :=
  ⟨OptRes.optimal, 1, true, 0, fun _ => true, fun k t => ⟨k * 100 + t.id⟩⟩

/-- Backend where only the first check succeeds. -/
def libOneSat : MSatLib :=
  ⟨OptRes.optimal, 0, false, 0, fun k => k == 0, fun k t => ⟨k * 100 + t.id⟩⟩

/-- Backend where exactly the first two checks succeed. -/
def libTwoSat : MSatLib :=
  ⟨OptRes.optimal, 0, false, 0, fun k => decide (k < 2),
   fun k t => ⟨k * 100 + t.id⟩⟩

/-! Helper lemmas about the compilation and loops. -/

/-- The objective a Minimize/Maximize goal compiles to in the multi-goal
variants (no third argument is passed there). -/
def scalarObj (conv : Term → NTerm) (g : Goal) : MSatObjective :=
  ⟨if g.is_minimization_goal then ObjCtor.make_minimize
    else ObjCtor.make_maximize,
   ObjArg.single (conv g.term), none⟩

theorem compileGoalMulti_scalar (conv : Term → NTerm) (g : Goal)
    (h : g.isScalarSupported = true) :
    compileGoalMulti conv g = Except.ok (scalarObj conv g) := by
  obtain ⟨tag, t, ts⟩ := g
  cases tag <;>
    simp_all [Goal.isScalarSupported, Goal.is_minimization_goal,
      Goal.is_maximization_goal, Goal.is_minmax_goal, Goal.is_maxmin_goal,
      compileGoalMulti, scalarObj, PyCallable.call]

theorem compileGoalMulti_unsupported (conv : Term → NTerm) (g : Goal)
    (h : g.isSupported = false) :
    compileGoalMulti conv g =
      Except.error (PyErr.goalNotSupported "optimathsat" g) := by
  obtain ⟨tag, t, ts⟩ := g
  cases tag <;>
    simp_all [Goal.isSupported, Goal.is_minimization_goal,
      Goal.is_maximization_goal, Goal.is_minmax_goal, Goal.is_maxmin_goal,
      compileGoalMulti]

theorem compileGoalSingle_unsupported (conv : Term → NTerm) (g : Goal)
    (h : g.isSupported = false) :
    compileGoalSingle conv g =
      Except.error (PyErr.goalNotSupported "optimathsat" g) := by
  obtain ⟨tag, t, ts⟩ := g
  cases tag <;>
    simp_all [Goal.isSupported, Goal.is_minimization_goal,
      Goal.is_maximization_goal, Goal.is_minmax_goal, Goal.is_maxmin_goal,
      compileGoalSingle]

theorem compileGoalSingle_ok (conv : Term → NTerm) (g : Goal)
    (h : g.isSupported = true) :
    ∃ obj, compileGoalSingle conv g = Except.ok obj := by
  obtain ⟨tag, t, ts⟩ := g
  cases tag with
  | minimize => exact ⟨_, rfl⟩
  | maximize => exact ⟨_, rfl⟩
  | minmax => exact ⟨_, rfl⟩
  | maxmin => exact ⟨_, rfl⟩
  | other s =>
    simp [Goal.isSupported, Goal.is_minmax_goal, Goal.is_maxmin_goal,
      Goal.is_minimization_goal, Goal.is_maximization_goal] at h

theorem assertAll_scalar_all (conv : Term → NTerm) (gs : List Goal)
    (h : ∀ g ∈ gs, g.isScalarSupported = true) :
    ∀ acc, assertAll conv gs acc = (acc ++ gs.map (scalarObj conv), none) := by
  induction gs with
  | nil => intro acc; simp [assertAll]
  | cons g gs ih =>
    intro acc
    have hg : g.isScalarSupported = true := h g (List.mem_cons_self g gs)
    have hrest : ∀ g' ∈ gs, g'.isScalarSupported = true :=
      fun g' hm => h g' (List.mem_cons_of_mem g hm)
    simp [assertAll, compileGoalMulti_scalar conv g hg, ih hrest,
      List.append_assoc]

theorem assertAll_front (conv : Term → NTerm) (pre rest : List Goal)
    (h : ∀ g ∈ pre, g.isScalarSupported = true) :
    ∀ acc, assertAll conv (pre ++ rest) acc =
      assertAll conv rest (acc ++ pre.map (scalarObj conv)) := by
  induction pre with
  | nil => intro acc; simp
  | cons g pre ih =>
    intro acc
    have hg : g.isScalarSupported = true := h g (List.mem_cons_self g pre)
    have hrest : ∀ g' ∈ pre, g'.isScalarSupported = true :=
      fun g' hm => h g' (List.mem_cons_of_mem g hm)
    simp [assertAll, compileGoalMulti_scalar conv g hg, ih hrest,
      List.append_assoc]

theorem paretoLoop_result_none (lib : MSatLib) (gs : List Goal) :
    ∀ k ms, (paretoLoop lib gs k ms).2.2 = none := by
  induction gs with
  | nil => intro k ms; rfl
  | cons g gs ih =>
    intro k ms
    simp only [paretoLoop]
    split
    · exact ih _ _
    · rfl

theorem paretoLoop_calls (lib : MSatLib) (gs : List Goal) :
    ∀ i k ms, i < gs.length → (∀ j, j < i → lib.solve (k + j) = true) →
      lib.solve (k + i) = false →
      (paretoLoop lib gs k ms).1 = k + i + 1 := by
  induction gs with
  | nil =>
    intro i k ms hi
    simp at hi
  | cons g gs ih =>
    intro i k ms hi hpre hfail
    match i with
    | 0 =>
      have h0 : lib.solve k = false := by simpa using hfail
      simp [paretoLoop, h0]
    | i + 1 =>
      have h0 : lib.solve k = true := by simpa using hpre 0 (Nat.succ_pos i)
      have h1 : (paretoLoop lib gs (k + 1)
          (ms ++ [(g, k, lib.getValue k g.term)])).1 = (k + 1) + i + 1 := by
        apply ih
        · simpa using Nat.lt_of_succ_lt_succ (by simpa using hi)
        · intro j hj
          have e : k + 1 + j = k + (j + 1) := by omega
          rw [e]
          exact hpre (j + 1) (by omega)
        · have e : k + 1 + i = k + (i + 1) := by omega
          rw [e]
          exact hfail
      simp only [paretoLoop, h0, if_true]
      rw [h1]
      omega

theorem drain_done (lib : MSatLib) (m k : Nat) :
    drain lib m ⟨k, true⟩ = ([], ⟨k, true⟩) := by
  cases m <;> rfl

theorem drain_run (lib : MSatLib) (i : Nat) :
    ∀ k n, (∀ j, j < i → lib.solve (k + j) = true) →
      lib.solve (k + i) = false → i < n →
      drain lib n ⟨k, false⟩ =
        ((List.range i).map (fun x => k + x), ⟨k + i, true⟩) := by
  induction i with
  | zero =>
    intro k n hpre hfail hn
    match n with
    | n + 1 =>
      have h0 : lib.solve k = false := by simpa using hfail
      simp [drain, BoxedGen.next, h0]
  | succ i ih =>
    intro k n hpre hfail hn
    match n with
    | n + 1 =>
      have h0 : lib.solve k = true := by simpa using hpre 0 (Nat.succ_pos i)
      have hnext : BoxedGen.next lib ⟨k, false⟩ = (some k, ⟨k + 1, false⟩) := by
        simp [BoxedGen.next, h0]
      have hpre2 : ∀ j, j < i → lib.solve (k + 1 + j) = true := by
        intro j hj
        have e : k + 1 + j = k + (j + 1) := by omega
        rw [e]
        exact hpre (j + 1) (by omega)
      have hfail2 : lib.solve (k + 1 + i) = false := by
        have e : k + 1 + i = k + (i + 1) := by omega
        rw [e]
        exact hfail
      have hrec := ih (k + 1) n hpre2 hfail2 (Nat.lt_of_succ_lt_succ hn)
      have hlist : (List.range (i + 1)).map (fun x => k + x)
          = k :: (List.range i).map (fun x => k + 1 + x) := by
        rw [List.range_succ_eq_map, List.map_cons, List.map_map]
        have e : ((fun x => k + x) ∘ Nat.succ) = (fun x => k + 1 + x) := by
          funext x
          simp [Function.comp]
          omega
        rw [e]
        simp
      have e2 : k + (i + 1) = k + 1 + i := by omega
      simp only [drain, hnext]
      rw [hrec, hlist, e2]

/-! Claim theorems. -/

/-- C1 (code bug, evaluated at the failing input): on a MinMax goal with a
non-empty term sequence, `optimize`'s compilation does invoke the backend's
minmax constructor with the full converted sequence, but in
`lexicographic_optimize`, `pareto_optimize` and `boxed_optimization` the
conversion loop variable `f` shadows the variable holding the constructor,
so the code calls the goal's last pysmt term instead of `msat_make_minmax`
and raises TypeError before any objective is produced or any check runs. -/
theorem minmax_constructor_shadowing_bug :
    compileGoalSingle convId gMM =
      Except.ok ⟨ObjCtor.make_minmax, ObjArg.vec [⟨2⟩, ⟨3⟩], some false⟩ ∧
    compileGoalMulti convId gMM = Except.error PyErr.typeError ∧
    (lexicographic_optimize libAllSat convId [gMM]).result =
      Except.error PyErr.typeError ∧
    (pareto_optimize libAllSat convId [gMM]).result =
      Except.error PyErr.typeError ∧
    (boxed_optimization convId [gMM]).result = Except.error PyErr.typeError :=
  ⟨rfl, rfl, rfl, rfl, rfl⟩

/-- C2 (code bug, evaluated at the failing input): on a goal sequence whose
every per-goal check succeeds, `pareto_optimize` records the
(model, value-of-cost-term) entry in its `models` dictionary, but the
function body ends without a return statement, so the caller receives None
instead of that mapping. -/
theorem pareto_missing_return_bug :
    (pareto_optimize libAllSat convId [gMin]).models =
      [(gMin, 0, Value.mk 0)] ∧
    (pareto_optimize libAllSat convId [gMin]).solveCalls = 1 ∧
    (pareto_optimize libAllSat convId [gMin]).result = Except.ok none :=
  ⟨rfl, rfl, rfl⟩

/-- C3 (counterexample): on a MinMax goal with a two-term sequence reaching
the Optimal outcome, the value component of `optimize`'s returned pair is
the raw backend status code, not a sequence of values — in particular not a
sequence of length 2 mirroring the goal's term sequence. -/
theorem optimize_value_not_term_seq_cex :
    optimize libAllSat convId gMM =
      Except.ok (some (0, OptValue.status OptRes.optimal)) ∧
    OptValue.isSeq (OptValue.status OptRes.optimal) = false ∧
    gMM.terms.length = 2 :=
  ⟨rfl, rfl, rfl⟩

/-- C3 (amended): whenever `optimize` reaches the Optimal outcome, the value
component of the returned pair is the backend's raw objective status code
`optres` — the same shape for every supported goal kind — and not a sequence
mirroring a MinMax/MaxMin goal's term sequence (nor a scalar cost value). -/
theorem optimize_value_component_is_status (lib : MSatLib)
    (conv : Term → NTerm) (g : Goal)
    (hsupp : g.isSupported = true)
    (hres : lib.objectiveResult = OptRes.optimal)
    (hub : ¬ lib.unbounded > 0)
    (hst : lib.isStrict = false)
    (hld : lib.loadResult = 0) :
    optimize lib conv g =
      Except.ok (some (0, OptValue.status OptRes.optimal)) := by
  obtain ⟨obj, hobj⟩ := compileGoalSingle_ok conv g hsupp
  simp [optimize, hobj, hres, hub, hst, hld]

/-- Witness for the amended C3 theorem at a concrete input. -/
theorem optimize_value_component_is_status_witness :
    optimize libAllSat convId gMin =
      Except.ok (some (0, OptValue.status OptRes.optimal)) :=
  optimize_value_component_is_status libAllSat convId gMin rfl rfl
    (by decide) rfl rfl

/-- C4: for every supported goal, `optimize` raises
SolverReturnedUnknownResultError exactly when the backend's objective status
after the check is Unknown, and returns None (raising nothing) exactly when
that status is Unsat — neither outcome is downgraded to the other. -/
theorem optimize_unknown_unsat_dichotomy (lib : MSatLib)
    (conv : Term → NTerm) (g : Goal) (hsupp : g.isSupported = true) :
    (optimize lib conv g = Except.error PyErr.solverReturnedUnknown ↔
      lib.objectiveResult = OptRes.unknown) ∧
    (optimize lib conv g = Except.ok none ↔
      lib.objectiveResult = OptRes.unsat) := by
  obtain ⟨obj, hobj⟩ := compileGoalSingle_ok conv g hsupp
  cases hres : lib.objectiveResult <;>
    simp [optimize, hobj] <;> split_ifs <;> simp_all

/-- Witness for the C4 theorem at a concrete input. -/
theorem optimize_unknown_unsat_dichotomy_witness :
    (optimize libUnknown convId gMin =
        Except.error PyErr.solverReturnedUnknown ↔
      libUnknown.objectiveResult = OptRes.unknown) ∧
    (optimize libUnknown convId gMin = Except.ok none ↔
      libUnknown.objectiveResult = OptRes.unsat) :=
  optimize_unknown_unsat_dichotomy libUnknown convId gMin rfl

/-- C5: on a supported goal whose objective status is Optimal, `optimize`
raises PysmtUnboundedOptimizationError with the unboundedness message when
the backend reports the value unbounded — even when it also reports it
strict, since the unboundedness check comes first — and with the
infinitesimality message when the value is bounded but strict. -/
theorem optimize_unbounded_before_strict (lib : MSatLib)
    (conv : Term → NTerm) (g : Goal)
    (hsupp : g.isSupported = true)
    (hres : lib.objectiveResult = OptRes.optimal) :
    (lib.unbounded > 0 →
      optimize lib conv g =
        Except.error (PyErr.unboundedOpt "The optimal value is unbounded")) ∧
    (¬ lib.unbounded > 0 → lib.isStrict = true →
      optimize lib conv g =
        Except.error
          (PyErr.unboundedOpt "The optimal value is infinitesimal")) := by
  obtain ⟨obj, hobj⟩ := compileGoalSingle_ok conv g hsupp
  constructor
  · intro hub
    simp [optimize, hobj, hres, hub]
  · intro hub hst
    simp [optimize, hobj, hres, hub, hst]

/-- Witness for the C5 theorem at a concrete input where the backend
reports the optimum both unbounded and strict. -/
theorem optimize_unbounded_before_strict_witness :
    (libUB.unbounded > 0 →
      optimize libUB convId gMin =
        Except.error (PyErr.unboundedOpt "The optimal value is unbounded")) ∧
    (¬ libUB.unbounded > 0 → libUB.isStrict = true →
      optimize libUB convId gMin =
        Except.error
          (PyErr.unboundedOpt "The optimal value is infinitesimal")) :=
  optimize_unbounded_before_strict libUB convId gMin rfl rfl

/-- C6 (counterexample): on the sequence containing one MinMax goal, the
shadowed-constructor defect raises TypeError inside the assert loop, so
`lexicographic_optimize` performs zero satisfiability checks and raises
instead of returning a (model, values) pair or (None, None). -/
theorem lex_minmax_goal_raises_cex :
    (lexicographic_optimize libAllSat convId [gMM]).solveCalls = 0 ∧
    (lexicographic_optimize libAllSat convId [gMM]).result =
      Except.error PyErr.typeError :=
  ⟨rfl, rfl⟩

/-- C6 (amended): for every sequence of goals whose objectives all compile —
in particular any sequence of Minimize/Maximize goals — after asserting all
objectives `lexicographic_optimize` runs exactly one satisfiability check;
on success it returns one model together with that model's valuation of each
goal's cost term in input order, and on failure it returns (None, None). -/
theorem lex_single_solve_and_readout (lib : MSatLib) (conv : Term → NTerm)
    (goals : List Goal)
    (hall : ∀ g ∈ goals, g.isScalarSupported = true) :
    (lexicographic_optimize lib conv goals).asserted =
      goals.map (scalarObj conv) ∧
    (lexicographic_optimize lib conv goals).solveCalls = 1 ∧
    (lib.solve 0 = true →
      (lexicographic_optimize lib conv goals).result =
        Except.ok
          (some 0, some (goals.map fun x => lib.getValue 0 x.term))) ∧
    (lib.solve 0 = false →
      (lexicographic_optimize lib conv goals).result =
        Except.ok (none, none)) := by
  have ha := assertAll_scalar_all conv goals hall []
  cases hs : lib.solve 0 <;> simp [lexicographic_optimize, ha, hs]

/-- Witness for the amended C6 theorem at a concrete input. -/
theorem lex_single_solve_and_readout_witness :
    (lexicographic_optimize libAllSat convId [gMin, gMax]).asserted =
      [gMin, gMax].map (scalarObj convId) ∧
    (lexicographic_optimize libAllSat convId [gMin, gMax]).solveCalls = 1 ∧
    (libAllSat.solve 0 = true →
      (lexicographic_optimize libAllSat convId [gMin, gMax]).result =
        Except.ok (some 0,
          some ([gMin, gMax].map fun x => libAllSat.getValue 0 x.term))) ∧
    (libAllSat.solve 0 = false →
      (lexicographic_optimize libAllSat convId [gMin, gMax]).result =
        Except.ok (none, none)) :=
  lex_single_solve_and_readout libAllSat convId [gMin, gMax] (by decide)

/-- C7: for every sequence of goals whose objectives all compile, if the
per-goal check at position i fails after every earlier check succeeded,
`pareto_optimize` returns None to the caller and stops right after the
failing check (i+1 solve calls in total), so no partial Pareto front is
ever returned. -/
theorem pareto_abort_on_first_failure (lib : MSatLib) (conv : Term → NTerm)
    (goals : List Goal) (i : Nat)
    (hall : ∀ g ∈ goals, g.isScalarSupported = true)
    (hi : i < goals.length)
    (hpre : ∀ j, j < i → lib.solve j = true)
    (hfail : lib.solve i = false) :
    (pareto_optimize lib conv goals).result = Except.ok none ∧
    (pareto_optimize lib conv goals).solveCalls = i + 1 := by
  have ha := assertAll_scalar_all conv goals hall []
  have hc := paretoLoop_calls lib goals i 0 [] hi (by simpa using hpre)
    (by simpa using hfail)
  have hnone := paretoLoop_result_none lib goals 0 []
  simp [pareto_optimize, ha, hnone, hc]

/-- Witness for the C7 theorem at a concrete input where the second check
fails. -/
theorem pareto_abort_on_first_failure_witness :
    (pareto_optimize libOneSat convId [gMin, gMax]).result =
      Except.ok none ∧
    (pareto_optimize libOneSat convId [gMin, gMax]).solveCalls = 2 :=
  pareto_abort_on_first_failure libOneSat convId [gMin, gMax] 1 (by decide)
    (by decide) (by decide) (by decide)

/-- C8: for every sequence of goals whose objectives all compile, the lazy
sequence handed out by `boxed_optimization` yields, when drained past the
first failing check, exactly the model of each successful check in order
(one per check), terminates at the first check that fails, and — once
exhausted — yields no further elements when iterated again. -/
theorem boxed_lazy_sequence_behavior (lib : MSatLib) (conv : Term → NTerm)
    (goals : List Goal) (i n m : Nat)
    (hall : ∀ g ∈ goals, g.isScalarSupported = true)
    (hpre : ∀ j, j < i → lib.solve j = true)
    (hfail : lib.solve i = false)
    (hn : i < n) :
    (boxed_optimization conv goals).result = Except.ok ⟨0, false⟩ ∧
    drain lib n ⟨0, false⟩ = (List.range i, ⟨i, true⟩) ∧
    (drain lib m ⟨i, true⟩).1 = [] := by
  have ha := assertAll_scalar_all conv goals hall []
  refine ⟨by simp [boxed_optimization, ha], ?_, by rw [drain_done]⟩
  have hr := drain_run lib i 0 n (by simpa using hpre) (by simpa using hfail)
    hn
  simpa using hr

/-- Witness for the C8 theorem at a concrete input where exactly the first
two checks succeed. -/
theorem boxed_lazy_sequence_behavior_witness :
    (boxed_optimization convId [gMin]).result = Except.ok ⟨0, false⟩ ∧
    drain libTwoSat 3 ⟨0, false⟩ = (List.range 2, ⟨2, true⟩) ∧
    (drain libTwoSat 4 ⟨2, true⟩).1 = [] :=
  boxed_lazy_sequence_behavior libTwoSat convId [gMin] 2 3 4 (by decide)
    (by decide) (by decide) (by decide)

/-- C9: for every goal of an unrecognized kind, each of the four variants
raises GoalNotSupportedError carrying the backend name "optimathsat" and the
offending goal; the objectives asserted are exactly those of the goals
preceding it — none is constructed or asserted for the offending goal — and
no satisfiability check runs (no retry). -/
theorem unsupported_goal_raises_everywhere (lib : MSatLib)
    (conv : Term → NTerm) (pre post : List Goal) (g : Goal)
    (hpre : ∀ g' ∈ pre, g'.isScalarSupported = true)
    (hg : g.isSupported = false) :
    optimize lib conv g =
      Except.error (PyErr.goalNotSupported "optimathsat" g) ∧
    lexicographic_optimize lib conv (pre ++ g :: post) =
      ⟨pre.map (scalarObj conv), 0,
        Except.error (PyErr.goalNotSupported "optimathsat" g)⟩ ∧
    pareto_optimize lib conv (pre ++ g :: post) =
      ⟨pre.map (scalarObj conv), 0, [],
        Except.error (PyErr.goalNotSupported "optimathsat" g)⟩ ∧
    boxed_optimization conv (pre ++ g :: post) =
      ⟨pre.map (scalarObj conv),
        Except.error (PyErr.goalNotSupported "optimathsat" g)⟩ := by
  have ha : assertAll conv (pre ++ g :: post) [] =
      (pre.map (scalarObj conv),
        some (PyErr.goalNotSupported "optimathsat" g)) := by
    rw [assertAll_front conv pre (g :: post) hpre []]
    simp [assertAll, compileGoalMulti_unsupported conv g hg]
  refine ⟨?_, ?_, ?_, ?_⟩
  · simp [optimize, compileGoalSingle_unsupported conv g hg]
  · simp [lexicographic_optimize, ha]
  · simp [pareto_optimize, ha]
  · simp [boxed_optimization, ha]

/-- Witness for the C9 theorem at a concrete input: an unrecognized goal
between a Minimize and a Maximize goal. -/
theorem unsupported_goal_raises_everywhere_witness :
    optimize libAllSat convId gBad =
      Except.error (PyErr.goalNotSupported "optimathsat" gBad) ∧
    lexicographic_optimize libAllSat convId ([gMin] ++ gBad :: [gMax]) =
      ⟨[gMin].map (scalarObj convId), 0,
        Except.error (PyErr.goalNotSupported "optimathsat" gBad)⟩ ∧
    pareto_optimize libAllSat convId ([gMin] ++ gBad :: [gMax]) =
      ⟨[gMin].map (scalarObj convId), 0, [],
        Except.error (PyErr.goalNotSupported "optimathsat" gBad)⟩ ∧
    boxed_optimization convId ([gMin] ++ gBad :: [gMax]) =
      ⟨[gMin].map (scalarObj convId),
        Except.error (PyErr.goalNotSupported "optimathsat" gBad)⟩ :=
  unsupported_goal_raises_everywhere libAllSat convId [gMin] [gMax] gBad
    (by decide) (by decide)

/-- C10: `_le` on a pair of terms whose common sort is neither integer,
real nor bit-vector falls through both branches and returns None without
raising any error. -/
theorem le_unsupported_type_none (x y : Term)
    (_hxy : x.ty = y.ty)
    (h1 : x.ty.is_int_type = false)
    (h2 : x.ty.is_real_type = false)
    (h3 : x.ty.is_bv_type = false) :
    _le x y = none := by
  simp [_le, h1, h2, h3]

/-- Witness for the C10 theorem on a pair of Boolean terms. -/
theorem le_unsupported_type_none_witness :
    _le ⟨0, PType.boolT⟩ ⟨1, PType.boolT⟩ = none :=
  le_unsupported_type_none ⟨0, PType.boolT⟩ ⟨1, PType.boolT⟩ rfl rfl rfl rfl

end OptiMSAT
